import Mathlib

/-!
Shallow embedding of `src/server.js` (livecctv): camera registry, ffmpeg process
map, stream client sets, the HTTP handlers that mutate them, and the ffmpeg /
websocket event hooks.  JavaScript `Map` is modelled as an association list with
JS insertion-order semantics (`jset` replaces in place or appends, `jdel`
removes the entry); JS `Set` of websockets is a duplicate-free `List Nat`.
Asynchronous effects (signals sent to processes, websocket close/send calls)
are returned as an explicit list of `Action`s.
-/

namespace LiveCCTV

/-- Association-list model of a JavaScript `Map` with string keys. -/
abbrev JMap (α : Type) : Type := List (String × α)

/-- `map.get(k)`: first entry with key `k`, if any. -/
def jget {α : Type} : JMap α → String → Option α
  | [], _ => none
  | (k0, v0) :: rest, k => if k0 = k then some v0 else jget rest k

/-- `map.set(k, v)`: replace in place if the key exists, else append (JS insertion order). -/
def jset {α : Type} : JMap α → String → α → JMap α
  | [], k, v => [(k, v)]
  | (k0, v0) :: rest, k, v =>
      if k0 = k then (k, v) :: rest else (k0, v0) :: jset rest k v

/-- `map.delete(k)`: drop the entry for `k` (maps built by `jset` have unique keys). -/
def jdel {α : Type} : JMap α → String → JMap α
  | [], _ => []
  | (k0, v0) :: rest, k =>
      if k0 = k then jdel rest k else (k0, v0) :: jdel rest k

/-- `map.has(k)`. -/
def jhas {α : Type} (m : JMap α) (k : String) : Bool :=
  (jget m k).isSome

/-- A camera record as built by the POST /api/cameras handler. -/
structure Camera where
  id : String
  name : String
  rtspUrl : String
  status : String
  streamUrl : String
  createdAt : String
deriving Repr, DecidableEq

/-- Websocket connections are identified by an opaque numeric handle. -/
abbrev Ws := Nat

/-- Process handles are identified by an opaque numeric pid. -/
abbrev Pid := Nat

/-- A frame chunk is an opaque unit of binary output. -/
abbrev Chunk := Nat

/-- The three global maps of server.js (lines 17-19). -/
structure ServerState where
  cameras : JMap Camera
  ffmpegProcesses : JMap Pid
  streamClients : JMap (List Ws)
deriving Repr, DecidableEq

/-- Externally visible side effects performed by the handlers. -/
inductive Action where
  | kill (pid : Pid) (signal : String)
  | closeWs (ws : Ws)
  | closeWsCode (ws : Ws) (code : Nat) (reason : String)
  | send (ws : Ws) (chunk : Chunk)
deriving Repr, DecidableEq

/-- HTTP responses of the camera endpoints, by outcome. -/
inductive Resp where
  | invalidInput
  | created (camera : Camera)
  | notFound
  | alreadyActive
  | notActive
  | started (camera : Camera)
  | stopped (camera : Camera)
  | deleted
deriving Repr, DecidableEq

/-- The state at server startup: all three maps empty. -/
def initState : ServerState :=
  { cameras := [], ffmpegProcesses := [], streamClients := [] }

/-- The camera object literal of server.js lines 32-39. -/
def builtCamera (name rtspUrl freshId createdAt : String) : Camera :=
  { id := freshId, name := name, rtspUrl := rtspUrl, status := "offline",
    streamUrl := "/live/" ++ freshId, createdAt := createdAt }

/-- POST /api/cameras (server.js lines 24-44).  `uuidv4()` and
`new Date().toISOString()` are modelled as the inputs `freshId` and
`createdAt`; among strings only the empty string is falsy in JS, so the
line-27 guard is the emptiness test. -/
def postCameras (s : ServerState) (name rtspUrl freshId createdAt : String) :
    ServerState × Resp :=
  if name = "" ∨ rtspUrl = "" then
    (s, Resp.invalidInput)
  else
    let camera := builtCamera name rtspUrl freshId createdAt
    ({ s with cameras := jset s.cameras freshId camera }, Resp.created camera)

/-- startStream (server.js lines 117-131).  Node's `spawn` returns a child
handle without throwing even when the binary cannot be started (spawn failure
surfaces later on the child's `error` event), so this function is total; the
spawned handle is the input `pid`.  Line 130 installs a fresh empty client set,
overwriting any set already present for the camera. -/
def startStream (s : ServerState) (cameraId : String) (pid : Pid) : ServerState :=
  { s with
    ffmpegProcesses := jset s.ffmpegProcesses cameraId pid,
    streamClients := jset s.streamClients cameraId [] }

/-- POST /api/cameras/:id/start (server.js lines 70-92).  The catch branch of
lines 89-91 is not modelled: `startStream` never throws (see its docstring). -/
def postStart (s : ServerState) (id : String) (pid : Pid) : ServerState × Resp :=
  match jget s.cameras id with
  | none => (s, Resp.notFound)
  | some camera =>
    if jhas s.ffmpegProcesses id then
      (s, Resp.alreadyActive)
    else
      let s1 := startStream s id pid
      let camera1 := { camera with status := "live" }
      ({ s1 with cameras := jset s1.cameras id camera1 }, Resp.started camera1)

/-- stopStream (server.js lines 174-189): SIGTERM the stored process and delete
its entry, then close every client and delete the client set. -/
def stopStream (s : ServerState) (cameraId : String) : ServerState × List Action :=
  let killActs :=
    match jget s.ffmpegProcesses cameraId with
    | some pid => [Action.kill pid "SIGTERM"]
    | none => []
  let closeActs :=
    match jget s.streamClients cameraId with
    | some clients => clients.map Action.closeWs
    | none => []
  ({ s with
      ffmpegProcesses := jdel s.ffmpegProcesses cameraId,
      streamClients := jdel s.streamClients cameraId },
   killActs ++ closeActs)

/-- POST /api/cameras/:id/stop (server.js lines 95-113).  The `cameras.get(id)`
of line 108 runs after `stopStream`, which never touches the camera map, so it
returns the record matched at line 98. -/
def postStop (s : ServerState) (id : String) : ServerState × Resp × List Action :=
  match jget s.cameras id with
  | none => (s, Resp.notFound, [])
  | some camera =>
    if jhas s.ffmpegProcesses id then
      let s1 := (stopStream s id).1
      let acts := (stopStream s id).2
      let camera1 := { camera with status := "offline" }
      ({ s1 with cameras := jset s1.cameras id camera1 }, Resp.stopped camera1, acts)
    else
      (s, Resp.notActive, [])

/-- DELETE /api/cameras/:id (server.js lines 53-67): stop the stream only when
a process entry exists, then remove the camera record. -/
def deleteCamera (s : ServerState) (id : String) : ServerState × Resp × List Action :=
  if jhas s.cameras id then
    let s1 := if jhas s.ffmpegProcesses id then (stopStream s id).1 else s
    let acts := if jhas s.ffmpegProcesses id then (stopStream s id).2 else []
    ({ s1 with cameras := jdel s1.cameras id }, Resp.deleted, acts)
  else
    (s, Resp.notFound, [])

/-- ffmpeg `close` hook (server.js lines 148-167), run when the process for
`cameraId` exits for any reason: delete the process entry, set the camera
offline when it still exists, close and delete all clients. -/
def onFfmpegClose (s : ServerState) (cameraId : String) : ServerState × List Action :=
  let s1 := { s with ffmpegProcesses := jdel s.ffmpegProcesses cameraId }
  let s2 :=
    match jget s1.cameras cameraId with
    | some camera =>
        { s1 with cameras := jset s1.cameras cameraId { camera with status := "offline" } }
    | none => s1
  match jget s2.streamClients cameraId with
  | some clients =>
      ({ s2 with streamClients := jdel s2.streamClients cameraId },
       clients.map Action.closeWs)
  | none => (s2, [])

/-- ffmpeg `error` hook (server.js lines 169-171): `console.error` only — no
map is touched, no response is sent, no cleanup happens. -/
def onFfmpegError (s : ServerState) (_cameraId : String) : ServerState × List Action :=
  (s, [])

/-- ffmpeg stdout `data` hook (server.js lines 132-142): send the chunk to each
client of the set whose `readyState` is 1 (OPEN); others are skipped and the
set itself is left unmodified. -/
def onFfmpegData (s : ServerState) (cameraId : String) (readyState : Ws → Nat)
    (chunk : Chunk) : ServerState × List Action :=
  match jget s.streamClients cameraId with
  | some clients =>
      (s, (clients.filter (fun c => readyState c == 1)).map (fun c => Action.send c chunk))
  | none => (s, [])

/-- JS `Set.add` on the duplicate-free list model. -/
def setAdd (clients : List Ws) (ws : Ws) : List Ws :=
  if clients.contains ws then clients else clients ++ [ws]

/-- wss `connection` hook (server.js lines 192-220): reject with close code
1008 when the id is missing or unknown, otherwise ensure a client set exists
and add the connection to it. -/
def onWssConnection (s : ServerState) (cameraId : String) (ws : Ws) :
    ServerState × List Action :=
  if cameraId = "" ∨ ¬ jhas s.cameras cameraId then
    (s, [Action.closeWsCode ws 1008 "Camera not found"])
  else
    let clients := (jget s.streamClients cameraId).getD []
    ({ s with streamClients := jset s.streamClients cameraId (setAdd clients ws) }, [])

/-- ws `close` hook (server.js lines 209-215): remove the connection from the
camera's client set when that set still exists. -/
def onWsClose (s : ServerState) (cameraId : String) (ws : Ws) : ServerState :=
  match jget s.streamClients cameraId with
  | some clients =>
      { s with streamClients := jset s.streamClients cameraId (clients.filter (fun c => c != ws)) }
  | none => s

/-- One externally observable event the single-threaded runtime dispatches:
an HTTP operation, an ffmpeg process event, or a websocket event. -/
inductive Event where
  | create (freshId name rtspUrl createdAt : String)
  | start (id : String) (pid : Pid)
  | stop (id : String)
  | del (id : String)
  | ffmpegClose (id : String)
  | ffmpegError (id : String)
  | ffmpegData (id : String) (chunk : Chunk)
  | connect (id : String) (ws : Ws)
  | disconnect (id : String) (ws : Ws)
deriving Repr, DecidableEq

/-- State transition of one dispatched event (responses and actions dropped).
`readyState` is the environment's view of each websocket during a data event. -/
def step (readyState : Ws → Nat) (s : ServerState) : Event → ServerState
  | Event.create freshId name rtspUrl createdAt =>
      (postCameras s name rtspUrl freshId createdAt).1
  | Event.start id pid => (postStart s id pid).1
  | Event.stop id => (postStop s id).1
  | Event.del id => (deleteCamera s id).1
  | Event.ffmpegClose id => (onFfmpegClose s id).1
  | Event.ffmpegError id => (onFfmpegError s id).1
  | Event.ffmpegData id chunk => (onFfmpegData s id readyState chunk).1
  | Event.connect id ws => (onWssConnection s id ws).1
  | Event.disconnect id ws => onWsClose s id ws

/-- Run a sequence of events in dispatch order. -/
def run (readyState : Ws → Nat) (s : ServerState) : List Event → ServerState
  | [] => s
  | e :: es => run readyState (step readyState s e) es

/-- `uuidv4()` collision-freedom for one event: a create event draws an id not
already registered.  All other events are unconstrained. -/
def freshOk (s : ServerState) : Event → Bool
  | Event.create freshId _ _ _ => !(jhas s.cameras freshId)
  | _ => true

/-- `uuidv4()` collision-freedom along a whole run. -/
def freshRun (readyState : Ws → Nat) : ServerState → List Event → Bool
  | _, [] => true
  | s, e :: es => freshOk s e && freshRun readyState (step readyState s e) es

/-- The spec's round-trip invariant: a registered camera reads `live` exactly
when the process map holds an entry for its id. -/
def StatusInv (s : ServerState) : Prop :=
  ∀ id c, jget s.cameras id = some c →
    (c.status = "live" ↔ jhas s.ffmpegProcesses id = true)

/-- Auxiliary invariant: every process-map entry belongs to a registered camera. -/
def ProcBound (s : ServerState) : Prop :=
  ∀ id, jhas s.ffmpegProcesses id = true → jhas s.cameras id = true

/-- Concrete fixture: the record POST /api/cameras builds for a camera named
Door, as freshly created. -/
def doorOffline : Camera :=
  { id := "a", name := "Door", rtspUrl := "rtsp://x", status := "offline",
    streamUrl := "/live/a", createdAt := "t0" }

/-- The Door record after a successful start. -/
def doorLive : Camera :=
  { doorOffline with status := "live" }

/-- Fixture: Door registered and offline, nothing running, nobody connected. -/
def doorIdleState : ServerState :=
  { cameras := [("a", doorOffline)], ffmpegProcesses := [], streamClients := [] }

/-- Fixture: Door live with process 7 and websocket 5 subscribed. -/
def doorLiveState : ServerState :=
  { cameras := [("a", doorLive)], ffmpegProcesses := [("a", 7)],
    streamClients := [("a", [5])] }

/-- Fixture: Door live with process 7 and websockets 5 and 6 subscribed. -/
def doorTwoClientsState : ServerState :=
  { cameras := [("a", doorLive)], ffmpegProcesses := [("a", 7)],
    streamClients := [("a", [5, 6])] }

/-- Fixture readiness: websocket 6 is OPEN (readyState 1), everything else is
CLOSED (readyState 3). -/
def onlySixOpen : Ws → Nat :=
  fun c => if c = 6 then 1 else 3

/-- Fixture: a stale process-map entry for an id with no camera record. -/
def ghostProcState : ServerState :=
  { cameras := [], ffmpegProcesses := [("g", 3)], streamClients := [] }

/-- Fixture event sequence exercising create, start, connect, broadcast,
crash, restart, stop and delete for one camera. -/
def doorEvents : List Event :=
  [Event.create "a" "Door" "rtsp://x" "t0", Event.start "a" 7,
   Event.connect "a" 5, Event.ffmpegData "a" 9, Event.ffmpegClose "a",
   Event.start "a" 8, Event.stop "a", Event.del "a"]

theorem jget_jset {α : Type} (m : JMap α) (k k' : String) (v : α) :
    jget (jset m k v) k' = if k = k' then some v else jget m k' := by
  induction m with
  | nil => by_cases h : k = k' <;> simp [jset, jget, h]
  | cons p rest ih =>
    obtain ⟨k0, v0⟩ := p
    by_cases h0 : k0 = k
    · subst h0
      by_cases h : k0 = k' <;> simp [jset, jget, h]
    · by_cases h : k0 = k'
      · subst h
        have hkk : ¬ k = k0 := fun hc => h0 hc.symm
        simp [jset, jget, h0, hkk]
      · simp [jset, jget, h0, h, ih]

theorem jget_jdel {α : Type} (m : JMap α) (k k' : String) :
    jget (jdel m k) k' = if k = k' then none else jget m k' := by
  induction m with
  | nil => by_cases h : k = k' <;> simp [jdel, jget, h]
  | cons p rest ih =>
    obtain ⟨k0, v0⟩ := p
    by_cases h0 : k0 = k
    · subst h0
      by_cases h : k0 = k'
      · subst h; simp [jdel, jget, ih]
      · simp [jdel, jget, h, ih]
    · by_cases h : k0 = k'
      · subst h
        have hkk : ¬ k = k0 := fun hc => h0 hc.symm
        simp [jdel, jget, h0, hkk]
      · simp [jdel, jget, h0, h, ih]

theorem jhas_jset {α : Type} (m : JMap α) (k k' : String) (v : α) :
    jhas (jset m k v) k' = if k = k' then true else jhas m k' := by
  by_cases h : k = k' <;> simp [jhas, jget_jset, h]

theorem jhas_jdel {α : Type} (m : JMap α) (k k' : String) :
    jhas (jdel m k) k' = if k = k' then false else jhas m k' := by
  by_cases h : k = k' <;> simp [jhas, jget_jdel, h]

theorem jhas_iff_jget {α : Type} (m : JMap α) (k : String) :
    jhas m k = true ↔ ∃ v, jget m k = some v := by
  simp [jhas, Option.isSome_iff_exists]

theorem jhas_eq_false_iff {α : Type} (m : JMap α) (k : String) :
    jhas m k = false ↔ jget m k = none := by
  cases h : jget m k <;> simp [jhas, h]

theorem statusInv_init : StatusInv initState := by
  intro id c h
  simp [initState, jget] at h

theorem procBound_init : ProcBound initState := by
  intro id h
  simp [initState, jhas, jget] at h

theorem inv_step (readyState : Ws → Nat) (s : ServerState) (e : Event)
    (hS : StatusInv s) (hP : ProcBound s) (hF : freshOk s e = true) :
    StatusInv (step readyState s e) ∧ ProcBound (step readyState s e) := by
  cases e with
  | create freshId name rtspUrl createdAt =>
    simp only [freshOk, Bool.not_eq_true'] at hF
    by_cases hv : name = "" ∨ rtspUrl = ""
    · simpa [step, postCameras, hv] using ⟨hS, hP⟩
    · simp only [step, postCameras, hv, if_false]
      constructor
      · intro id c hg
        rw [jget_jset] at hg
        by_cases hid : freshId = id
        · subst hid
          rw [if_pos rfl] at hg
          injection hg with hg
          subst hg
          constructor
          · intro hlive; simp [builtCamera] at hlive
          · intro hproc
            exact absurd (hP freshId hproc) (by simp [hF])
        · rw [if_neg hid] at hg
          exact hS id c hg
      · intro id hid
        have := hP id hid
        rw [jhas_jset]
        split <;> simp [this]
  | start id pid =>
    cases hc : jget s.cameras id with
    | none => simpa [step, postStart, hc] using ⟨hS, hP⟩
    | some camera =>
      by_cases hp : jhas s.ffmpegProcesses id
      · simpa [step, postStart, hc, hp] using ⟨hS, hP⟩
      · simp only [step, postStart, hc, hp, Bool.false_eq_true, if_false]
        constructor
        · intro id' c hg
          simp only [startStream] at hg
          rw [jget_jset] at hg
          by_cases hid : id = id'
          · subst hid
            rw [if_pos rfl] at hg
            injection hg with hg
            subst hg
            simp [startStream, jhas_jset]
          · rw [if_neg hid] at hg
            rw [startStream]
            simp only []
            rw [jhas_jset, if_neg hid]
            exact hS id' c hg
        · intro id' hid
          simp only [startStream] at hid ⊢
          rw [jhas_jset] at hid
          rw [jhas_jset]
          by_cases h : id = id'
          · simp [h]
          · rw [if_neg h] at hid ⊢
            exact hP id' hid
  | stop id =>
    cases hc : jget s.cameras id with
    | none => simpa [step, postStop, hc] using ⟨hS, hP⟩
    | some camera =>
      by_cases hp : jhas s.ffmpegProcesses id
      · simp only [step, postStop, hc, hp, if_true]
        constructor
        · intro id' c hg
          simp only [stopStream] at hg
          rw [jget_jset] at hg
          by_cases hid : id = id'
          · subst hid
            rw [if_pos rfl] at hg
            injection hg with hg
            subst hg
            simp [stopStream, jhas_jdel]
          · rw [if_neg hid] at hg
            simp only [stopStream]
            rw [jhas_jdel, if_neg hid]
            exact hS id' c hg
        · intro id' hid
          simp only [stopStream] at hid ⊢
          rw [jhas_jdel] at hid
          rw [jhas_jset]
          by_cases h : id = id'
          · simp [h]
          · rw [if_neg h] at hid ⊢
            exact hP id' hid
      · simpa [step, postStop, hc, hp] using ⟨hS, hP⟩
  | del id =>
    by_cases hc : jhas s.cameras id
    · simp only [step, deleteCamera, hc, if_true]
      by_cases hp : jhas s.ffmpegProcesses id
      · simp only [hp, if_true]
        constructor
        · intro id' c hg
          simp only [stopStream] at hg ⊢
          rw [jget_jdel] at hg
          by_cases hid : id = id'
          · simp [hid] at hg
          · rw [if_neg hid] at hg
            rw [jhas_jdel, if_neg hid]
            exact hS id' c hg
        · intro id' hid
          simp only [stopStream] at hid ⊢
          rw [jhas_jdel] at hid
          rw [jhas_jdel]
          by_cases h : id = id'
          · simp [h] at hid
          · rw [if_neg h] at hid ⊢
            exact hP id' hid
      · simp only [hp, Bool.false_eq_true, if_false]
        constructor
        · intro id' c hg
          rw [jget_jdel] at hg
          by_cases hid : id = id'
          · simp [hid] at hg
          · rw [if_neg hid] at hg
            exact hS id' c hg
        · intro id' hid
          have hcam := hP id' hid
          rw [jhas_jdel]
          by_cases h : id = id'
          · subst h
            exact absurd hid (by simp [hp])
          · rw [if_neg h]
            exact hcam
    · simpa [step, deleteCamera, hc] using ⟨hS, hP⟩
  | ffmpegClose id =>
    have key : ∀ t : ServerState × List Action,
        t = onFfmpegClose s id → StatusInv t.1 ∧ ProcBound t.1 := by
      intro t ht
      have hcam : ∀ id' c, jget t.1.cameras id' = some c →
          (c.status = "live" ↔ jhas t.1.ffmpegProcesses id' = true) := by
        intro id' c hg
        have hproc : t.1.ffmpegProcesses = jdel s.ffmpegProcesses id := by
          rw [ht]
          simp only [onFfmpegClose]
          cases jget s.cameras id <;> cases h2 : jget s.streamClients id <;> simp
        have hcams : t.1.cameras =
            (match jget s.cameras id with
             | some camera => jset s.cameras id { camera with status := "offline" }
             | none => s.cameras) := by
          rw [ht]
          simp only [onFfmpegClose]
          cases jget s.cameras id <;>
            cases h2 : jget (ServerState.streamClients s) id <;> simp
        rw [hproc, jhas_jdel]
        rw [hcams] at hg
        cases hcase : jget s.cameras id with
        | none =>
          rw [hcase] at hg
          by_cases hid : id = id'
          · subst hid; rw [hcase] at hg; cases hg
          · rw [if_neg hid]
            exact hS id' c hg
        | some camera =>
          rw [hcase] at hg
          rw [jget_jset] at hg
          by_cases hid : id = id'
          · subst hid
            rw [if_pos rfl] at hg
            injection hg with hg
            subst hg
            simp
          · rw [if_neg hid] at hg
            rw [if_neg hid]
            exact hS id' c hg
      refine ⟨hcam, ?_⟩
      intro id' hid
      have hproc : t.1.ffmpegProcesses = jdel s.ffmpegProcesses id := by
        rw [ht]
        simp only [onFfmpegClose]
        cases jget s.cameras id <;> cases h2 : jget s.streamClients id <;> simp
      have hcams : t.1.cameras =
          (match jget s.cameras id with
           | some camera => jset s.cameras id { camera with status := "offline" }
           | none => s.cameras) := by
        rw [ht]
        simp only [onFfmpegClose]
        cases jget s.cameras id <;>
          cases h2 : jget (ServerState.streamClients s) id <;> simp
      rw [hproc, jhas_jdel] at hid
      rw [hcams]
      by_cases h : id = id'
      · simp [h] at hid
      · rw [if_neg h] at hid
        have := hP id' hid
        cases hcase : jget s.cameras id with
        | none => exact this
        | some camera =>
          rw [jhas_jset, if_neg h]
          exact this
    exact key (onFfmpegClose s id) rfl
  | ffmpegError id => simpa [step, onFfmpegError] using ⟨hS, hP⟩
  | ffmpegData id chunk =>
    have : (onFfmpegData s id readyState chunk).1 = s := by
      simp only [onFfmpegData]
      cases jget s.streamClients id <;> simp
    simpa [step, this] using ⟨hS, hP⟩
  | connect id ws =>
    simp only [step, onWssConnection]
    by_cases hc : id = "" ∨ ¬ jhas s.cameras id
    · rw [if_pos hc]
      exact ⟨hS, hP⟩
    · rw [if_neg hc]
      exact ⟨fun id' c hg => hS id' c hg, fun id' hid => hP id' hid⟩
  | disconnect id ws =>
    have : ∀ s', s' = onWsClose s id ws →
        s'.cameras = s.cameras ∧ s'.ffmpegProcesses = s.ffmpegProcesses := by
      intro s' hs'
      rw [hs']
      simp only [onWsClose]
      cases jget s.streamClients id <;> simp
    obtain ⟨h1, h2⟩ := this (onWsClose s id ws) rfl
    constructor
    · intro id' c hg
      rw [step] at hg ⊢
      rw [h1] at hg
      rw [h2]
      exact hS id' c hg
    · intro id' hid
      rw [step, h2] at hid
      rw [step, h1]
      exact hP id' hid

theorem inv_run (readyState : Ws → Nat) (events : List Event) :
    ∀ s : ServerState, StatusInv s → ProcBound s →
      freshRun readyState s events = true →
      StatusInv (run readyState s events) ∧ ProcBound (run readyState s events) := by
  induction events with
  | nil => intro s hS hP _; exact ⟨hS, hP⟩
  | cons e es ih =>
    intro s hS hP hF
    simp only [freshRun, Bool.and_eq_true] at hF
    obtain ⟨hF1, hF2⟩ := hF
    obtain ⟨hS', hP'⟩ := inv_step readyState s e hS hP hF1
    exact ih (step readyState s e) hS' hP' hF2

/-- C1: after any sequence of create/start/stop/delete operations and process
events has been fully processed (starting from the empty server state, with
collision-free uuid draws), every registered camera's status reads `live`
exactly when the process map holds an active-stream entry for its id. -/
theorem c1_live_status_iff_active_entry (readyState : Ws → Nat)
    (events : List Event) (h : freshRun readyState initState events = true) :
    StatusInv (run readyState initState events) :=
  (inv_run readyState events initState statusInv_init procBound_init h).1

/-- Witness for C1: the fixture run (create, start, connect, data, crash,
restart, stop, delete) draws fresh ids and satisfies the invariant. -/
theorem c1_live_status_iff_active_entry_witness :
    freshRun onlySixOpen initState doorEvents = true ∧
    StatusInv (run onlySixOpen initState doorEvents) :=
  ⟨by decide, c1_live_status_iff_active_entry onlySixOpen doorEvents (by decide)⟩

/-- C6: starting a camera that already has a process-map entry answers
AlreadyRunning and returns the state completely unchanged: no second entry, no
change to the existing entry, the camera record, or any subscriber set. -/
theorem c6_start_already_running (s : ServerState) (id : String)
    (camera : Camera) (pid newPid : Pid)
    (hc : jget s.cameras id = some camera)
    (hp : jget s.ffmpegProcesses id = some pid) :
    postStart s id newPid = (s, Resp.alreadyActive) := by
  have hh : jhas s.ffmpegProcesses id = true := by simp [jhas, hp]
  simp [postStart, hc, hh]

/-- Witness for C6: starting the already-live Door camera with a new pid
changes nothing and reports the stream active. -/
theorem c6_start_already_running_witness :
    postStart doorLiveState "a" 8 = (doorLiveState, Resp.alreadyActive) :=
  c6_start_already_running doorLiveState "a" doorLive 7 8 rfl rfl

/-- C7: stopping a registered camera with no process-map entry answers
NotRunning and performs no state change and no external action. -/
theorem c7_stop_not_running (s : ServerState) (id : String) (camera : Camera)
    (hc : jget s.cameras id = some camera)
    (hp : jhas s.ffmpegProcesses id = false) :
    postStop s id = (s, Resp.notActive, []) := by
  simp [postStop, hc, hp]

/-- Witness for C7: stopping the idle Door camera is a no-op answering
NotRunning. -/
theorem c7_stop_not_running_witness :
    postStop doorIdleState "a" = (doorIdleState, Resp.notActive, []) :=
  c7_stop_not_running doorIdleState "a" doorOffline rfl rfl

/-- C8: create with an empty name or source rejects with InvalidInput and
mutates nothing; otherwise, for a collision-free fresh id, it stores and
returns an OFFLINE record whose viewer path is derived from the id, and the id
differs from every registered camera's id. -/
theorem c8_create_contract (s : ServerState)
    (name rtspUrl freshId createdAt : String) :
    (name = "" ∨ rtspUrl = "" →
      postCameras s name rtspUrl freshId createdAt = (s, Resp.invalidInput)) ∧
    (name ≠ "" → rtspUrl ≠ "" → jhas s.cameras freshId = false →
      (postCameras s name rtspUrl freshId createdAt =
        ({ s with
             cameras := jset s.cameras freshId
                          (builtCamera name rtspUrl freshId createdAt) },
         Resp.created (builtCamera name rtspUrl freshId createdAt)) ∧
      (builtCamera name rtspUrl freshId createdAt).status = "offline" ∧
      (builtCamera name rtspUrl freshId createdAt).streamUrl = "/live/" ++ freshId ∧
      (∀ id', jhas s.cameras id' = true → id' ≠ freshId))) := by
  constructor
  · intro hv
    simp [postCameras, hv]
  · intro h1 h2 hF
    refine ⟨by simp [postCameras, h1, h2], rfl, rfl, ?_⟩
    intro id' hid' heq
    subst heq
    rw [hF] at hid'
    cases hid'

/-- Witness for C8: both branches at concrete inputs — empty name rejected
with no mutation, and a valid Door creation stored with status offline and
derived viewer path. -/
theorem c8_create_contract_witness :
    postCameras doorIdleState "" "rtsp://y" "b" "t1" =
      (doorIdleState, Resp.invalidInput) ∧
    postCameras doorIdleState "Gate" "rtsp://y" "b" "t1" =
      ({ doorIdleState with
          cameras := jset doorIdleState.cameras "b" (builtCamera "Gate" "rtsp://y" "b" "t1") },
       Resp.created (builtCamera "Gate" "rtsp://y" "b" "t1")) :=
  ⟨(c8_create_contract doorIdleState "" "rtsp://y" "b" "t1").1 (Or.inl rfl),
   (((c8_create_contract doorIdleState "Gate" "rtsp://y" "b" "t1").2
      (by decide) (by decide) (by decide)).1)⟩

/-- C10: for an id with no camera record, start and stop both answer NotFound
with no state change and no action, whatever the process map holds — the
registry check precedes the running/not-running check. -/
theorem c10_notfound_precedes_running_check (s : ServerState) (id : String)
    (pid : Pid) (hc : jget s.cameras id = none) :
    postStart s id pid = (s, Resp.notFound) ∧
    postStop s id = (s, Resp.notFound, []) := by
  constructor
  · simp [postStart, hc]
  · simp [postStop, hc]

/-- Witness for C10 at a state whose process map holds an entry for the very
id that has no camera record: NotFound still wins over AlreadyRunning and
NotRunning. -/
theorem c10_notfound_precedes_running_check_witness :
    postStart ghostProcState "g" 4 = (ghostProcState, Resp.notFound) ∧
    postStop ghostProcState "g" = (ghostProcState, Resp.notFound, []) :=
  c10_notfound_precedes_running_check ghostProcState "g" 4 rfl

/-- C2 (code bug): when the ffmpeg binary cannot be spawned, Node delivers the
failure on the child's asynchronous `error` event, so the handler's try/catch
never fires: the start endpoint answers success, a process-map entry is
created, the camera is marked live, and the `error` hook (lines 169-171)
performs no cleanup at all — contradicting the claimed synchronous
StartFailure with no entry and OFFLINE status. -/
theorem c2_spawn_failure_reported_as_success :
    (postStart doorIdleState "a" 7).2 = Resp.started doorLive ∧
    (onFfmpegError (postStart doorIdleState "a" 7).1 "a").2 = [] ∧
    (onFfmpegError (postStart doorIdleState "a" 7).1 "a").1 =
      (postStart doorIdleState "a" 7).1 ∧
    jhas (onFfmpegError (postStart doorIdleState "a" 7).1 "a").1.ffmpegProcesses
      "a" = true ∧
    jget (onFfmpegError (postStart doorIdleState "a" 7).1 "a").1.cameras "a" =
      some doorLive :=
  ⟨rfl, rfl, rfl, rfl, rfl⟩

/-- C3 counterexample: stopping the live Door camera mutates state inside the
stop path itself — the process-map entry and the client set are gone and the
registry record is rewritten before any close event runs. -/
theorem c3_stop_mutates_state_itself :
    (postStop doorLiveState "a").1.ffmpegProcesses = [] ∧
    (postStop doorLiveState "a").1.streamClients = [] ∧
    jget (postStop doorLiveState "a").1.cameras "a" = some doorOffline ∧
    (postStop doorLiveState "a").2.2 = [Action.kill 7 "SIGTERM", Action.closeWs 5] :=
  ⟨rfl, rfl, rfl, rfl⟩

/-- C3 amended: stop on a running camera sends SIGTERM and itself deletes the
active-stream entry, force-closes and deletes the subscriber set, and sets the
camera record to offline — teardown is not left to the close hook. -/
theorem c3_stop_performs_teardown (s : ServerState) (id : String)
    (camera : Camera) (pid : Pid)
    (hc : jget s.cameras id = some camera)
    (hp : jget s.ffmpegProcesses id = some pid) :
    postStop s id =
      ({ cameras := jset s.cameras id { camera with status := "offline" },
         ffmpegProcesses := jdel s.ffmpegProcesses id,
         streamClients := jdel s.streamClients id },
       Resp.stopped { camera with status := "offline" },
       Action.kill pid "SIGTERM" ::
         ((jget s.streamClients id).getD []).map Action.closeWs) := by
  have hh : jhas s.ffmpegProcesses id = true := by simp [jhas, hp]
  simp only [postStop, hc, hh, if_true, stopStream, hp]
  cases jget s.streamClients id <;> simp

/-- Witness for the amended C3 at the live Door fixture. -/
theorem c3_stop_performs_teardown_witness :
    postStop doorLiveState "a" =
      ({ cameras := jset doorLiveState.cameras "a" doorOffline,
         ffmpegProcesses := jdel doorLiveState.ffmpegProcesses "a",
         streamClients := jdel doorLiveState.streamClients "a" },
       Resp.stopped doorOffline,
       Action.kill 7 "SIGTERM" ::
         ((jget doorLiveState.streamClients "a").getD []).map Action.closeWs) :=
  c3_stop_performs_teardown doorLiveState "a" doorLive 7 rfl rfl

/-- C4 (code bug): a viewer (websocket 5) subscribes to the registered but
offline Door camera; `startStream` line 130 then installs a fresh empty client
set, dropping the idle subscriber, so a chunk broadcast after the start is
delivered to nobody — contradicting the claim (and spec section 2) that the
connection stays subscribed and receives frames going forward. -/
theorem c4_start_drops_idle_subscriber :
    jget (onWssConnection doorIdleState "a" 5).1.streamClients "a" = some [5] ∧
    jget (postStart (onWssConnection doorIdleState "a" 5).1 "a" 7).1.streamClients
      "a" = some [] ∧
    (onFfmpegData (postStart (onWssConnection doorIdleState "a" 5).1 "a" 7).1
      "a" (fun _ => 1) 9).2 = [] :=
  ⟨rfl, rfl, rfl⟩

/-- C5 counterexample: websocket 5 subscribes to the registered but offline
Door camera; deleting the camera then succeeds without emitting any close
action and leaves the idle subscriber registered in the client set. -/
theorem c5_delete_leaves_idle_subscriber :
    (deleteCamera (onWssConnection doorIdleState "a" 5).1 "a").2.1 = Resp.deleted ∧
    (deleteCamera (onWssConnection doorIdleState "a" 5).1 "a").2.2 = [] ∧
    jget (deleteCamera (onWssConnection doorIdleState "a" 5).1 "a").1.streamClients
      "a" = some [5] ∧
    (deleteCamera (onWssConnection doorIdleState "a" 5).1 "a").1.cameras = [] :=
  ⟨rfl, rfl, rfl, rfl⟩

/-- C5 amended: delete on a registered camera removes the record and, when an
active stream exists, first runs the stream teardown (SIGTERM, stream
subscribers closed, both entries deleted); but when no active stream exists it
emits no action, so idle subscriber connections stay open and registered. -/
theorem c5_delete_contract (s : ServerState) (id : String)
    (hc : jhas s.cameras id = true) :
    ((deleteCamera s id).2.1 = Resp.deleted ∧
     jhas (deleteCamera s id).1.cameras id = false ∧
     jhas (deleteCamera s id).1.ffmpegProcesses id = false) ∧
    (∀ pid, jget s.ffmpegProcesses id = some pid →
       (deleteCamera s id).2.2 =
         Action.kill pid "SIGTERM" ::
           ((jget s.streamClients id).getD []).map Action.closeWs ∧
       jget (deleteCamera s id).1.streamClients id = none) ∧
    (jhas s.ffmpegProcesses id = false →
       (deleteCamera s id).2.2 = [] ∧
       (deleteCamera s id).1.streamClients = s.streamClients) := by
  by_cases hp : jhas s.ffmpegProcesses id
  · obtain ⟨pid0, hpid⟩ := (jhas_iff_jget s.ffmpegProcesses id).1 hp
    refine ⟨⟨?_, ?_, ?_⟩, ?_, ?_⟩
    · simp [deleteCamera, hc, hp]
    · simp only [deleteCamera, hc, hp, if_true, stopStream]
      rw [jhas_jdel, if_pos rfl]
    · simp only [deleteCamera, hc, hp, if_true, stopStream]
      rw [jhas_jdel, if_pos rfl]
    · intro pid hpid'
      rw [hpid] at hpid'
      injection hpid' with hpid'
      subst hpid'
      constructor
      · simp only [deleteCamera, hc, hp, if_true, stopStream, hpid]
        cases jget s.streamClients id <;> simp
      · simp only [deleteCamera, hc, hp, if_true, stopStream]
        rw [jget_jdel, if_pos rfl]
    · intro hfalse
      rw [hfalse] at hp
      cases hp
  · refine ⟨⟨?_, ?_, ?_⟩, ?_, ?_⟩
    · simp [deleteCamera, hc, hp]
    · simp only [deleteCamera, hc, hp, Bool.false_eq_true, if_true, if_false]
      rw [jhas_jdel, if_pos rfl]
    · simp only [deleteCamera, hc, hp, Bool.false_eq_true, if_true, if_false]
    · intro pid hpid
      have : jget s.ffmpegProcesses id = none := by
        rw [← jhas_eq_false_iff]
        simpa using hp
      rw [this] at hpid
      cases hpid
    · intro _
      constructor
      · simp [deleteCamera, hc, hp]
      · simp [deleteCamera, hc, hp]

/-- Witness for the amended C5 at the live Door fixture with one stream
subscriber. -/
theorem c5_delete_contract_witness :
    (deleteCamera doorLiveState "a").2.1 = Resp.deleted ∧
    jhas (deleteCamera doorLiveState "a").1.cameras "a" = false ∧
    (deleteCamera doorLiveState "a").2.2 =
      Action.kill 7 "SIGTERM" ::
        ((jget doorLiveState.streamClients "a").getD []).map Action.closeWs ∧
    jget (deleteCamera doorLiveState "a").1.streamClients "a" = none :=
  ⟨(c5_delete_contract doorLiveState "a" rfl).1.1,
   (c5_delete_contract doorLiveState "a" rfl).1.2.1,
   ((c5_delete_contract doorLiveState "a" rfl).2.1 7 rfl).1,
   ((c5_delete_contract doorLiveState "a" rfl).2.1 7 rfl).2⟩

/-- C9 counterexample: websocket 5 is not writable (readyState 3) while 6 is
OPEN; the broadcast sends the chunk only to 6 and skips 5, but leaves 5 in the
client set instead of removing it. -/
theorem c9_skipped_client_not_removed :
    (onFfmpegData doorTwoClientsState "a" onlySixOpen 9).2 = [Action.send 6 9] ∧
    (onFfmpegData doorTwoClientsState "a" onlySixOpen 9).1 = doorTwoClientsState ∧
    jget (onFfmpegData doorTwoClientsState "a" onlySixOpen 9).1.streamClients
      "a" = some [5, 6] :=
  ⟨rfl, rfl, rfl⟩

/-- C9 amended: the broadcast leaves the state untouched and emits exactly one
send per currently subscribed connection whose readyState is OPEN — a
non-writable connection is silently skipped without affecting the others, but
it is not removed from the set. -/
theorem c9_broadcast_delivery (s : ServerState) (id : String)
    (readyState : Ws → Nat) (chunk : Chunk) (clients : List Ws)
    (h : jget s.streamClients id = some clients) :
    (onFfmpegData s id readyState chunk).1 = s ∧
    (∀ c : Ws, Action.send c chunk ∈ (onFfmpegData s id readyState chunk).2 ↔
       (c ∈ clients ∧ readyState c = 1)) ∧
    (∀ a ∈ (onFfmpegData s id readyState chunk).2,
       ∃ c, a = Action.send c chunk ∧ readyState c = 1) := by
  simp only [onFfmpegData, h]
  refine ⟨trivial, ?_, ?_⟩
  · intro c
    simp only [List.mem_map, List.mem_filter, beq_iff_eq]
    constructor
    · rintro ⟨x, ⟨hx, hrs⟩, heq⟩
      injection heq with h1 h2
      subst h1
      exact ⟨hx, hrs⟩
    · rintro ⟨hc, hrs⟩
      exact ⟨c, ⟨hc, hrs⟩, rfl⟩
  · intro a ha
    simp only [List.mem_map, List.mem_filter, beq_iff_eq] at ha
    obtain ⟨x, ⟨-, hrs⟩, heq⟩ := ha
    exact ⟨x, heq.symm, hrs⟩

/-- Witness for the amended C9: at the two-client fixture, the OPEN websocket
6 receives the chunk, and the state is unchanged. -/
theorem c9_broadcast_delivery_witness :
    (onFfmpegData doorTwoClientsState "a" onlySixOpen 9).1 = doorTwoClientsState ∧
    (Action.send 6 9 ∈ (onFfmpegData doorTwoClientsState "a" onlySixOpen 9).2 ↔
       (6 ∈ [5, 6] ∧ onlySixOpen 6 = 1)) :=
  ⟨(c9_broadcast_delivery doorTwoClientsState "a" onlySixOpen 9 [5, 6] rfl).1,
   (c9_broadcast_delivery doorTwoClientsState "a" onlySixOpen 9 [5, 6] rfl).2.1 6⟩

end LiveCCTV
